import Mathlib

/-!
Shallow embedding of the SNAC nitrogen-aggregation model
(src/snac/cooling.py, src/snac/aggregation.py, src/snac/diamond.py,
src/snac/SNACmodel.py) and proofs of the frozen claims about it.

Python floats are modelled as real numbers; code that can raise is modelled
in the `Except String` monad, with the Python exception class recorded in
the error string.
-/

namespace SNAC

/-! ## cooling.py -/

/-- `linear_cool(T_start, time, rate) = T_start - time * rate`. -/
def linear_cool (T_start time rate : ℝ) : ℝ :=
  T_start - time * rate

/-- `exponential_cool(T_start, time, rate) = T_start * exp(-rate * time)`. -/
noncomputable def exponential_cool (T_start time rate : ℝ) : ℝ :=
  T_start * Real.exp (-rate * time)

/-! ## aggregation.py : constants and the kinetics step -/

/-- Activation-energy constant `_EAR = 81160` of aggregation.py. -/
def EAR : ℝ := 81160

/-- Pre-exponential constant `_PREEXP = 293608` of aggregation.py. -/
def PREEXP : ℝ := 293608

/-- The list `_SCENARIOS` of aggregation.py. -/
def SCENARIOS : List String :=
  ["continuous", "hot_pulse", "hot_spike", "rapid_ascent", "slow_ascent"]

/-- `aggregate(NA, T, t)` of aggregation.py:
`rate_const = _PREEXP * exp(-_EAR/(T+273))`, result `NA/(1 + rate_const*t*NA)`.
`t` is in seconds (callers convert), `T` in degrees Celsius. -/
noncomputable def aggregate (NA T t : ℝ) : ℝ :=
  NA / (1 + (PREEXP * Real.exp (-EAR / (T + 273))) * t * NA)

/-! ## aggregation.py : the per-checkpoint temperature of `aggregate_and_cool`

The if/elif chain on `T_scenario` inside the loop of `aggregate_and_cool`
(aggregation.py lines 137-247).  Unpacking `scenario_params` is fallible in
Python (`TypeError` on `None`, `ValueError` on wrong arity): `scenario_params`
is modelled as `Option (List ℝ)` and the unpack as a match whose fallthrough
is the error.  When none of a scenario's mutually exclusive time branches
fires, Python would leave `T` unbound (`UnboundLocalError` at first use);
that arm is kept verbatim (it is unreachable over the reals). -/
noncomputable def scenarioTemp (cooling_function : ℝ → ℝ → ℝ → ℝ)
    (T_start cooling_rate : ℝ) (T_scenario : String)
    (scenario_params : Option (List ℝ)) (duration : ℝ) : Except String ℝ :=
  if T_scenario = "continuous" then
    .ok (cooling_function T_start duration cooling_rate)
  else if T_scenario = "hot_pulse" then
    match scenario_params with
    | some [T_pulse, t_pulse_start, pulse_duration] =>
      if duration < t_pulse_start then
        .ok (cooling_function T_start duration cooling_rate)
      else if t_pulse_start ≤ duration ∧ duration ≤ t_pulse_start + pulse_duration then
        .ok (cooling_function T_start t_pulse_start cooling_rate + T_pulse)
      else if t_pulse_start + pulse_duration < duration then
        .ok (cooling_function T_start duration cooling_rate)
      else
        .error "UnboundLocalError: T"
    | _ => .error "ValueError: cannot unpack scenario_params"
  else if T_scenario = "hot_spike" then
    match scenario_params with
    | some [T_pulse, t_pulse_start, pulse_duration] =>
      if duration < t_pulse_start then
        .ok (cooling_function T_start duration cooling_rate)
      else if t_pulse_start ≤ duration ∧ duration ≤ t_pulse_start + pulse_duration then
        .ok (let T_start_pulse :=
              cooling_function T_start t_pulse_start cooling_rate + T_pulse
             let T_after_pulse :=
              cooling_function T_start (t_pulse_start + pulse_duration) cooling_rate
             T_start_pulse + (T_after_pulse - T_start_pulse) *
               ((duration - t_pulse_start) / pulse_duration))
      else if t_pulse_start + pulse_duration < duration then
        .ok (cooling_function T_start duration cooling_rate)
      else
        .error "UnboundLocalError: T"
    | _ => .error "ValueError: cannot unpack scenario_params"
  else if T_scenario = "rapid_ascent" then
    match scenario_params with
    | some [T_drop, t_ascent] =>
      if duration < t_ascent then
        .ok (cooling_function T_start duration cooling_rate)
      else
        .ok (cooling_function
          (cooling_function T_start t_ascent cooling_rate - T_drop)
          (duration - t_ascent) cooling_rate)
    | _ => .error "ValueError: cannot unpack scenario_params"
  else if T_scenario = "slow_ascent" then
    match scenario_params with
    | some [rate_ascent, t_ascent_start, ascent_duration] =>
      if duration < t_ascent_start then
        .ok (cooling_function T_start duration cooling_rate)
      else if t_ascent_start ≤ duration ∧ duration ≤ t_ascent_start + ascent_duration then
        .ok (cooling_function
          (cooling_function T_start t_ascent_start cooling_rate)
          (duration - t_ascent_start) rate_ascent)
      else if t_ascent_start + ascent_duration < duration then
        .ok (cooling_function
          (cooling_function
            (cooling_function T_start t_ascent_start cooling_rate)
            ascent_duration rate_ascent)
          (duration - (t_ascent_start + ascent_duration)) cooling_rate)
      else
        .error "UnboundLocalError: T"
    | _ => .error "ValueError: cannot unpack scenario_params"
  else
    .error "ValueError: Invalid T_scenario"

/-! ## aggregation.py : the checkpoint loop of `aggregate_and_cool`

The `for duration in durations` loop (aggregation.py lines 134-274), carrying
`c_NA0`, `r_NA0` and the previous duration (`durations[i-1]`; `none` at
`i = 0`, where `d_t = duration`).  The three appended histories are returned
in checkpoint order. -/
noncomputable def aggregate_and_cool_loop (cooling_function : ℝ → ℝ → ℝ → ℝ)
    (T_start cooling_rate : ℝ) (T_scenario : String)
    (scenario_params : Option (List ℝ)) (age_core age_rim : ℝ) :
    ℝ → ℝ → Option ℝ → List ℝ → Except String (List ℝ × List ℝ × List ℝ)
  | _, _, _, [] => .ok ([], [], [])
  | c_NA0, r_NA0, prev, duration :: rest =>
    match scenarioTemp cooling_function T_start cooling_rate T_scenario
        scenario_params duration with
    | .error e => .error e
    | .ok T =>
      let d_t : ℝ :=
        match prev with
        | none => duration
        | some p => duration - p
      let next : ℝ × ℝ :=
        if age_core - duration > age_rim then
          (aggregate c_NA0 T (d_t * 1e6 * 365.25 * 24 * 60 * 60), r_NA0)
        else if age_core - duration < age_rim then
          (aggregate c_NA0 T (d_t * 1e6 * 365.25 * 24 * 60 * 60),
           aggregate r_NA0 T (d_t * 1e6 * 365.25 * 24 * 60 * 60))
        else
          (c_NA0, r_NA0)
      match aggregate_and_cool_loop cooling_function T_start cooling_rate T_scenario
          scenario_params age_core age_rim next.1 next.2 (some duration) rest with
      | .error e => .error e
      | .ok (NA_core, NA_rim, T_all) =>
        .ok (next.1 :: NA_core, next.2 :: NA_rim, T :: T_all)

/-- The loop of `aggregate_and_cool` started as the function starts it:
`c_NA0 = c_NT`, `r_NA0 = r_NT`, no previous checkpoint. -/
noncomputable def aggregate_and_cool_runs (cooling_function : ℝ → ℝ → ℝ → ℝ)
    (T_start cooling_rate : ℝ) (T_scenario : String)
    (scenario_params : Option (List ℝ)) (durations : List ℝ)
    (age_core age_rim c_NT r_NT : ℝ) :
    Except String (List ℝ × List ℝ × List ℝ) :=
  aggregate_and_cool_loop cooling_function T_start cooling_rate T_scenario
    scenario_params age_core age_rim c_NT r_NT none durations

/-- `aggregate_and_cool` without `return_history` (aggregation.py lines
276-295): `c_agg_model = 1 - NA_core[-1]/c_NT`, `r_agg_model =
1 - NA_rim[-1]/r_NT`, error `((r_agg - r_agg_model)^2 + (c_agg -
c_agg_model)^2) * 1e3`.  Indexing `[-1]` of an empty history is Python's
`IndexError`. -/
noncomputable def aggregate_and_cool_error (cooling_function : ℝ → ℝ → ℝ → ℝ)
    (T_start cooling_rate : ℝ) (T_scenario : String)
    (scenario_params : Option (List ℝ)) (durations : List ℝ)
    (age_core age_rim c_NT r_NT c_agg r_agg : ℝ) : Except String ℝ :=
  match aggregate_and_cool_runs cooling_function T_start cooling_rate T_scenario
      scenario_params durations age_core age_rim c_NT r_NT with
  | .error e => .error e
  | .ok (NA_core, NA_rim, _) =>
    match NA_core.getLast?, NA_rim.getLast? with
    | some c_last, some r_last =>
      .ok (((r_agg - (1 - r_last / r_NT)) ^ 2 + (c_agg - (1 - c_last / c_NT)) ^ 2) * 1e3)
    | _, _ => .error "IndexError"

/-- `aggregate_and_cool` with `return_history=True`: the three histories.
The final aggregation values (and so `NA_core[-1]`, `NA_rim[-1]`) are
computed before the history is returned, so an empty `durations` is an
`IndexError` in this mode too. -/
noncomputable def aggregate_and_cool_history (cooling_function : ℝ → ℝ → ℝ → ℝ)
    (T_start cooling_rate : ℝ) (T_scenario : String)
    (scenario_params : Option (List ℝ)) (durations : List ℝ)
    (age_core age_rim c_NT r_NT : ℝ) :
    Except String (List ℝ × List ℝ × List ℝ) :=
  match aggregate_and_cool_runs cooling_function T_start cooling_rate T_scenario
      scenario_params durations age_core age_rim c_NT r_NT with
  | .error e => .error e
  | .ok (NA_core, NA_rim, T_all) =>
    match NA_core.getLast?, NA_rim.getLast? with
    | some _, some _ => .ok (NA_core, NA_rim, T_all)
    | _, _ => .error "IndexError"

/-! ## diamond.py -/

/-- The fields `Diamond.__init__` assigns (diamond.py lines 11-37); the
constructor performs no validation, so it is modelled as the plain record. -/
structure Diamond where
  age_core : ℝ
  age_rim : ℝ
  age_kimberlite : ℝ
  c_NT : ℝ
  c_agg : ℝ
  r_NT : ℝ
  r_agg : ℝ


/-- The JSON object `Diamond.to_json` writes and `Diamond.from_json` reads:
one key per Diamond field, in the source's order. -/
structure DiamondData where
  age_core : ℝ
  age_rim : ℝ
  age_kimberlite : ℝ
  c_NT : ℝ
  c_agg : ℝ
  r_NT : ℝ
  r_agg : ℝ


/-- `Diamond.to_json` (diamond.py lines 64-82), minus the file write. -/
def Diamond.to_json (d : Diamond) : DiamondData :=
  ⟨d.age_core, d.age_rim, d.age_kimberlite, d.c_NT, d.c_agg, d.r_NT, d.r_agg⟩

/-- `Diamond.from_json` (diamond.py lines 39-62), minus the file read. -/
def Diamond.from_json (data : DiamondData) : Diamond :=
  ⟨data.age_core, data.age_rim, data.age_kimberlite, data.c_NT, data.c_agg,
   data.r_NT, data.r_agg⟩

/-! ## SNACmodel.py -/

/-- The state `AggregationModel.__init__` establishes (SNACmodel.py lines
21-68), plus the attributes `run()` would add, as an option: `fitted` starts
`False` and `model_results` (the fitted temperature/rate pair) absent. -/
structure AggregationModel where
  diamond : Diamond
  cooling_rate0 : ℝ
  T_start0 : ℝ
  rate_bounds : ℝ × ℝ
  T_bounds : ℝ × ℝ
  dt : ℝ
  T_scenario : String
  scenario_params : Option (List ℝ)
  cooling_function : ℝ → ℝ → ℝ → ℝ
  fitted : Bool
  model_results : Option (ℝ × ℝ)

/-- `AggregationModel.__init__` (SNACmodel.py lines 21-68): the only check is
`T_scenario not in _SCENARIOS`, which raises `ValueError`; every other
argument is stored as given. -/
def AggregationModel.make (diamond : Diamond) (cooling_rate0 T_start0 : ℝ)
    (rate_bounds T_bounds : ℝ × ℝ) (dt : ℝ) (T_scenario : String)
    (scenario_params : Option (List ℝ)) (cooling_function : ℝ → ℝ → ℝ → ℝ) :
    Except String AggregationModel :=
  if T_scenario ∉ SCENARIOS then
    .error "ValueError: Unrecognised scenario"
  else
    .ok ⟨diamond, cooling_rate0, T_start0, rate_bounds, T_bounds, dt, T_scenario,
      scenario_params, cooling_function, false, none⟩

/-- `AggregationModel.get_durations` (SNACmodel.py lines 82-95):
`numpy.arange(0, duration_core + 1, dt)` is the list `k * dt` for
`0 ≤ k < ceil((duration_core + 1) / dt)`, and `durations[0] = 0.01`
overwrites the first entry (an `IndexError` when the array is empty). -/
noncomputable def get_durations (age_core age_kimberlite dt : ℝ) :
    Except String (List ℝ) :=
  match Nat.ceil ((age_core - age_kimberlite + 1) / dt) with
  | 0 => .error "IndexError"
  | n + 1 => .ok (0.01 :: ((List.range (n + 1)).drop 1).map (fun k => (k : ℝ) * dt))

/-- The JSON object `AggregationModel.to_json` writes (SNACmodel.py lines
295-329): the diamond data, the configuration fields, and — only when the
model is fitted — the fitted pair under `model_results`.  The cooling
function is not serialized. -/
structure AggregationModelData where
  diamond : Option DiamondData
  cooling_rate0 : ℝ
  T_start0 : ℝ
  rate_bounds : ℝ × ℝ
  T_bounds : ℝ × ℝ
  dt : ℝ
  T_scenario : String
  scenario_params : Option (List ℝ)
  model_results : Option (ℝ × ℝ)

/-- `AggregationModel.to_json` (SNACmodel.py lines 295-329), minus the file
write. -/
def AggregationModel.to_json (m : AggregationModel) : AggregationModelData :=
  { diamond := some m.diamond.to_json
    cooling_rate0 := m.cooling_rate0
    T_start0 := m.T_start0
    rate_bounds := m.rate_bounds
    T_bounds := m.T_bounds
    dt := m.dt
    T_scenario := m.T_scenario
    scenario_params := m.scenario_params
    model_results := if m.fitted then m.model_results else none }

/-- `AggregationModel.from_json` (SNACmodel.py lines 331-391), minus the file
read: an explicitly supplied diamond takes precedence, else the diamond data
of the file; with neither it raises `ValueError`.  The model is rebuilt
through `__init__` (so with `fitted = False`, no `model_results`, and the
default `linear_cool` cooling function): the file's `model_results` entry is
never read back. -/
def AggregationModel.from_json (data : AggregationModelData)
    (diamond : Option Diamond) : Except String AggregationModel :=
  match diamond with
  | some d =>
    AggregationModel.make d data.cooling_rate0 data.T_start0 data.rate_bounds
      data.T_bounds data.dt data.T_scenario data.scenario_params linear_cool
  | none =>
    match data.diamond with
    | some dd =>
      AggregationModel.make (Diamond.from_json dd) data.cooling_rate0
        data.T_start0 data.rate_bounds data.T_bounds data.dt data.T_scenario
        data.scenario_params linear_cool
    | none => .error "ValueError: Diamond data is required"

/-- The aggregation kinetics step as §4.2 of the spec words it:
`NA' = NA / (1 + k*dt*NA)` where `k = A0 * exp(-Ea/(T+273))` with the fixed
constants `A0 = 293608`, `Ea = 81160`, and `dt` converted from the model's
native time unit (Myr) to seconds before use.  Stated from the spec's words,
to be compared with `aggregate` as the source defines it. -/
noncomputable def specKineticsStep (NA T dt : ℝ) : ℝ :=
  NA / (1 + (293608 * Real.exp (-81160 / (T + 273))) *
    (dt * (1e6 * 365.25 * 24 * 60 * 60)) * NA)

/-- A fitted model on the sample of spec §8 (fitted pair 1105 deg.C,
0.011 K/Myr), used to exercise the serialization round trip. -/
noncomputable def exampleModel : AggregationModel :=
  ⟨⟨3520, 1860, 0, 625, 0.863, 801, 0.197⟩, 0.01, 1200, (0.001, 0.12),
   (1000, 1450), 1, "continuous", none, linear_cool, true, some (1105, 0.011)⟩

/-! ## Basic facts about the kinetics step -/

lemma rate_const_pos (T : ℝ) : 0 < PREEXP * Real.exp (-EAR / (T + 273)) :=
  mul_pos (by norm_num [PREEXP]) (Real.exp_pos _)

lemma denom_pos {NA t : ℝ} (T : ℝ) (hNA : 0 ≤ NA) (ht : 0 ≤ t) :
    0 < 1 + (PREEXP * Real.exp (-EAR / (T + 273))) * t * NA := by
  have hk := rate_const_pos T
  nlinarith [mul_nonneg (mul_nonneg hk.le ht) hNA]

lemma aggregate_nonneg {NA t : ℝ} (T : ℝ) (hNA : 0 ≤ NA) (ht : 0 ≤ t) :
    0 ≤ aggregate NA T t :=
  div_nonneg hNA (denom_pos T hNA ht).le

lemma aggregate_pos {NA t : ℝ} (T : ℝ) (hNA : 0 < NA) (ht : 0 ≤ t) :
    0 < aggregate NA T t :=
  div_pos hNA (denom_pos T hNA.le ht)

lemma aggregate_le_self {NA t : ℝ} (T : ℝ) (hNA : 0 ≤ NA) (ht : 0 ≤ t) :
    aggregate NA T t ≤ NA := by
  unfold aggregate
  rw [div_le_iff₀ (denom_pos T hNA ht)]
  nlinarith [mul_nonneg (mul_nonneg (mul_nonneg (rate_const_pos T).le ht) hNA) hNA]

lemma aggregate_lt_self {NA t : ℝ} (T : ℝ) (hNA : 0 < NA) (ht : 0 < t) :
    aggregate NA T t < NA := by
  unfold aggregate
  rw [div_lt_iff₀ (denom_pos T hNA.le ht.le)]
  nlinarith [mul_pos (mul_pos (mul_pos (rate_const_pos T) ht) hNA) hNA]

lemma sec_pos {x : ℝ} (h : 0 < x) : 0 < x * 1e6 * 365.25 * 24 * 60 * 60 :=
  mul_pos (mul_pos (mul_pos (mul_pos (mul_pos h (by norm_num)) (by norm_num))
    (by norm_num)) (by norm_num)) (by norm_num)

/-! ## Evaluation helpers for the loop -/

lemma scenarioTemp_continuous (cf : ℝ → ℝ → ℝ → ℝ) (Ts rate : ℝ)
    (sp : Option (List ℝ)) (d : ℝ) :
    scenarioTemp cf Ts rate "continuous" sp d = .ok (cf Ts d rate) := by
  simp [scenarioTemp]

lemma scenarioTemp_unknown (cf : ℝ → ℝ → ℝ → ℝ) (Ts rate : ℝ) (sc : String)
    (sp : Option (List ℝ)) (d : ℝ) (h : sc ∉ SCENARIOS) :
    scenarioTemp cf Ts rate sc sp d = .error "ValueError: Invalid T_scenario" := by
  simp only [SCENARIOS, List.mem_cons, List.not_mem_nil, or_false, not_or] at h
  obtain ⟨h1, h2, h3, h4, h5⟩ := h
  simp [scenarioTemp, h1, h2, h3, h4, h5]

lemma runs_singleton_core (cf : ℝ → ℝ → ℝ → ℝ) (Ts rate : ℝ)
    (sp : Option (List ℝ)) (d ac ar c r : ℝ) (h1 : ar < ac - d) :
    aggregate_and_cool_runs cf Ts rate "continuous" sp [d] ac ar c r =
      .ok ([aggregate c (cf Ts d rate) (d * 1e6 * 365.25 * 24 * 60 * 60)], [r],
        [cf Ts d rate]) := by
  rw [aggregate_and_cool_runs, aggregate_and_cool_loop, scenarioTemp_continuous]
  simp only [gt_iff_lt, if_pos h1]
  rfl

lemma runs_singleton_both (cf : ℝ → ℝ → ℝ → ℝ) (Ts rate : ℝ)
    (sp : Option (List ℝ)) (d ac ar c r : ℝ) (h2 : ac - d < ar) :
    aggregate_and_cool_runs cf Ts rate "continuous" sp [d] ac ar c r =
      .ok ([aggregate c (cf Ts d rate) (d * 1e6 * 365.25 * 24 * 60 * 60)],
        [aggregate r (cf Ts d rate) (d * 1e6 * 365.25 * 24 * 60 * 60)],
        [cf Ts d rate]) := by
  rw [aggregate_and_cool_runs, aggregate_and_cool_loop, scenarioTemp_continuous]
  simp only [gt_iff_lt, if_neg (lt_asymm h2), if_pos h2]
  rfl

lemma loop_none_eq_some_zero (cf : ℝ → ℝ → ℝ → ℝ) (Ts rate : ℝ) (sc : String)
    (sp : Option (List ℝ)) (ac ar c r : ℝ) (l : List ℝ) :
    aggregate_and_cool_loop cf Ts rate sc sp ac ar c r none l =
      aggregate_and_cool_loop cf Ts rate sc sp ac ar c r (some 0) l := by
  cases l with
  | nil => rfl
  | cons d rest => simp only [aggregate_and_cool_loop, sub_zero]

/-- Inversion of one successful step of the checkpoint loop: the temperature
came out of `scenarioTemp`, the new concentrations came out of one of the
three growth-comparison branches, and the rest of the run succeeded. -/
lemma loop_cons_elim {cf : ℝ → ℝ → ℝ → ℝ} {Ts rate : ℝ} {sc : String}
    {sp : Option (List ℝ)} {ac ar c r p d : ℝ} {rest cs rs Tl : List ℝ}
    (h : aggregate_and_cool_loop cf Ts rate sc sp ac ar c r (some p) (d :: rest) =
      .ok (cs, rs, Tl)) :
    ∃ T c1 r1 cs' rs' Tl',
      scenarioTemp cf Ts rate sc sp d = .ok T ∧
      ((ar < ac - d ∧
          c1 = aggregate c T ((d - p) * 1e6 * 365.25 * 24 * 60 * 60) ∧ r1 = r) ∨
       (ac - d < ar ∧
          c1 = aggregate c T ((d - p) * 1e6 * 365.25 * 24 * 60 * 60) ∧
          r1 = aggregate r T ((d - p) * 1e6 * 365.25 * 24 * 60 * 60)) ∨
       (ac - d = ar ∧ c1 = c ∧ r1 = r)) ∧
      aggregate_and_cool_loop cf Ts rate sc sp ac ar c1 r1 (some d) rest =
        .ok (cs', rs', Tl') ∧
      cs = c1 :: cs' ∧ rs = r1 :: rs' ∧ Tl = T :: Tl' := by
  rw [aggregate_and_cool_loop] at h
  cases hT : scenarioTemp cf Ts rate sc sp d with
  | error e => rw [hT] at h; exact absurd h (by simp)
  | ok T =>
    rw [hT] at h
    simp only [gt_iff_lt] at h
    rcases lt_trichotomy ar (ac - d) with h1 | h1 | h1
    · rw [if_pos h1] at h
      cases hrec : aggregate_and_cool_loop cf Ts rate sc sp ac ar
          (aggregate c T ((d - p) * 1e6 * 365.25 * 24 * 60 * 60)) r (some d) rest with
      | error e => rw [hrec] at h; exact absurd h (by simp)
      | ok triple =>
        obtain ⟨cs', rs', Tl'⟩ := triple
        rw [hrec] at h
        simp only [Except.ok.injEq, Prod.mk.injEq] at h
        exact ⟨T, _, _, cs', rs', Tl', rfl, Or.inl ⟨h1, rfl, rfl⟩, hrec,
          h.1.symm, h.2.1.symm, h.2.2.symm⟩
    · rw [if_neg (by rw [h1]; exact lt_irrefl _), if_neg (by rw [← h1]; exact lt_irrefl _)] at h
      cases hrec : aggregate_and_cool_loop cf Ts rate sc sp ac ar c r (some d) rest with
      | error e => rw [hrec] at h; exact absurd h (by simp)
      | ok triple =>
        obtain ⟨cs', rs', Tl'⟩ := triple
        rw [hrec] at h
        simp only [Except.ok.injEq, Prod.mk.injEq] at h
        exact ⟨T, _, _, cs', rs', Tl', rfl, Or.inr (Or.inr ⟨h1.symm, rfl, rfl⟩), hrec,
          h.1.symm, h.2.1.symm, h.2.2.symm⟩
    · rw [if_neg (lt_asymm h1), if_pos h1] at h
      cases hrec : aggregate_and_cool_loop cf Ts rate sc sp ac ar
          (aggregate c T ((d - p) * 1e6 * 365.25 * 24 * 60 * 60))
          (aggregate r T ((d - p) * 1e6 * 365.25 * 24 * 60 * 60)) (some d) rest with
      | error e => rw [hrec] at h; exact absurd h (by simp)
      | ok triple =>
        obtain ⟨cs', rs', Tl'⟩ := triple
        rw [hrec] at h
        simp only [Except.ok.injEq, Prod.mk.injEq] at h
        exact ⟨T, _, _, cs', rs', Tl', rfl, Or.inr (Or.inl ⟨h1, rfl, rfl⟩), hrec,
          h.1.symm, h.2.1.symm, h.2.2.symm⟩

/-- Along any successful run over strictly increasing checkpoints with a
positive first delta, strictly positive starting concentrations bound every
history entry: `0 < x ≤ start`. -/
lemma loop_pos_bounds (cf : ℝ → ℝ → ℝ → ℝ) (Ts rate : ℝ) (sc : String)
    (sp : Option (List ℝ)) (ac ar : ℝ) :
    ∀ (l : List ℝ) (p c r : ℝ) (cs rs Tl : List ℝ),
      aggregate_and_cool_loop cf Ts rate sc sp ac ar c r (some p) l =
        .ok (cs, rs, Tl) →
      List.Chain' (· < ·) (p :: l) → 0 < c → 0 < r →
      (∀ x ∈ cs, 0 < x ∧ x ≤ c) ∧ (∀ x ∈ rs, 0 < x ∧ x ≤ r) := by
  intro l
  induction l with
  | nil =>
    intro p c r cs rs Tl h _ _ _
    rw [aggregate_and_cool_loop] at h
    simp only [Except.ok.injEq, Prod.mk.injEq] at h
    obtain ⟨hcs, hrs, _⟩ := h
    subst hcs; subst hrs
    simp
  | cons d rest ih =>
    intro p c r cs rs Tl h hchain hc hr
    obtain ⟨hpd, hchain'⟩ := List.chain'_cons.1 hchain
    obtain ⟨T, c1, r1, cs', rs', Tl', _, hbr, hrec, hcs, hrs, _⟩ := loop_cons_elim h
    have ht0 : (0:ℝ) ≤ (d - p) * 1e6 * 365.25 * 24 * 60 * 60 :=
      (sec_pos (sub_pos.2 hpd)).le
    have hc1 : 0 < c1 ∧ c1 ≤ c := by
      rcases hbr with ⟨_, hc1, _⟩ | ⟨_, hc1, _⟩ | ⟨_, hc1, _⟩ <;> subst hc1
      · exact ⟨aggregate_pos T hc ht0, aggregate_le_self T hc.le ht0⟩
      · exact ⟨aggregate_pos T hc ht0, aggregate_le_self T hc.le ht0⟩
      · exact ⟨hc, le_refl _⟩
    have hr1 : 0 < r1 ∧ r1 ≤ r := by
      rcases hbr with ⟨_, _, hr1⟩ | ⟨_, _, hr1⟩ | ⟨_, _, hr1⟩ <;> subst hr1
      · exact ⟨hr, le_refl _⟩
      · exact ⟨aggregate_pos T hr ht0, aggregate_le_self T hr.le ht0⟩
      · exact ⟨hr, le_refl _⟩
    obtain ⟨ihc, ihr⟩ := ih d c1 r1 cs' rs' Tl' hrec hchain' hc1.1 hr1.1
    subst hcs; subst hrs
    refine ⟨fun x hx => ?_, fun x hx => ?_⟩
    · rcases List.mem_cons.1 hx with rfl | hx'
      · exact hc1
      · exact ⟨(ihc x hx').1, le_trans (ihc x hx').2 hc1.2⟩
    · rcases List.mem_cons.1 hx with rfl | hx'
      · exact hr1
      · exact ⟨(ihr x hx').1, le_trans (ihr x hx').2 hr1.2⟩

/-- Along any successful run over strictly increasing checkpoints with a
positive first delta, non-negative starting concentrations make both
histories non-negative, bounded by the start, and non-increasing. -/
lemma loop_nonneg_mono (cf : ℝ → ℝ → ℝ → ℝ) (Ts rate : ℝ) (sc : String)
    (sp : Option (List ℝ)) (ac ar : ℝ) :
    ∀ (l : List ℝ) (p c r : ℝ) (cs rs Tl : List ℝ),
      aggregate_and_cool_loop cf Ts rate sc sp ac ar c r (some p) l =
        .ok (cs, rs, Tl) →
      List.Chain' (· < ·) (p :: l) → 0 ≤ c → 0 ≤ r →
      (∀ x ∈ cs, 0 ≤ x ∧ x ≤ c) ∧ (∀ x ∈ rs, 0 ≤ x ∧ x ≤ r) ∧
      List.Chain' (fun a b => b ≤ a) cs ∧ List.Chain' (fun a b => b ≤ a) rs := by
  intro l
  induction l with
  | nil =>
    intro p c r cs rs Tl h _ _ _
    rw [aggregate_and_cool_loop] at h
    simp only [Except.ok.injEq, Prod.mk.injEq] at h
    obtain ⟨hcs, hrs, _⟩ := h
    subst hcs; subst hrs
    simp
  | cons d rest ih =>
    intro p c r cs rs Tl h hchain hc hr
    obtain ⟨hpd, hchain'⟩ := List.chain'_cons.1 hchain
    obtain ⟨T, c1, r1, cs', rs', Tl', _, hbr, hrec, hcs, hrs, _⟩ := loop_cons_elim h
    have ht0 : (0:ℝ) ≤ (d - p) * 1e6 * 365.25 * 24 * 60 * 60 :=
      (sec_pos (sub_pos.2 hpd)).le
    have hc1 : 0 ≤ c1 ∧ c1 ≤ c := by
      rcases hbr with ⟨_, hc1, _⟩ | ⟨_, hc1, _⟩ | ⟨_, hc1, _⟩ <;> subst hc1
      · exact ⟨aggregate_nonneg T hc ht0, aggregate_le_self T hc ht0⟩
      · exact ⟨aggregate_nonneg T hc ht0, aggregate_le_self T hc ht0⟩
      · exact ⟨hc, le_refl _⟩
    have hr1 : 0 ≤ r1 ∧ r1 ≤ r := by
      rcases hbr with ⟨_, _, hr1⟩ | ⟨_, _, hr1⟩ | ⟨_, _, hr1⟩ <;> subst hr1
      · exact ⟨hr, le_refl _⟩
      · exact ⟨aggregate_nonneg T hr ht0, aggregate_le_self T hr ht0⟩
      · exact ⟨hr, le_refl _⟩
    obtain ⟨ihc, ihr, ihcc, ihrc⟩ := ih d c1 r1 cs' rs' Tl' hrec hchain' hc1.1 hr1.1
    subst hcs; subst hrs
    refine ⟨fun x hx => ?_, fun x hx => ?_, ?_, ?_⟩
    · rcases List.mem_cons.1 hx with rfl | hx'
      · exact hc1
      · exact ⟨(ihc x hx').1, le_trans (ihc x hx').2 hc1.2⟩
    · rcases List.mem_cons.1 hx with rfl | hx'
      · exact hr1
      · exact ⟨(ihr x hx').1, le_trans (ihr x hx').2 hr1.2⟩
    · exact List.chain'_cons'.2
        ⟨fun y hy => (ihc y (List.mem_of_mem_head? hy)).2, ihcc⟩
    · exact List.chain'_cons'.2
        ⟨fun y hy => (ihr y (List.mem_of_mem_head? hy)).2, ihrc⟩

/-- With equal core and rim ages and non-negative checkpoint times, equal
current concentrations stay equal: the two histories coincide. -/
lemma loop_eq_ages (cf : ℝ → ℝ → ℝ → ℝ) (Ts rate : ℝ) (sc : String)
    (sp : Option (List ℝ)) (ar : ℝ) :
    ∀ (l : List ℝ) (p c r : ℝ) (cs rs Tl : List ℝ),
      aggregate_and_cool_loop cf Ts rate sc sp ar ar c r (some p) l =
        .ok (cs, rs, Tl) →
      (∀ x ∈ l, 0 ≤ x) → c = r → cs = rs := by
  intro l
  induction l with
  | nil =>
    intro p c r cs rs Tl h _ _
    rw [aggregate_and_cool_loop] at h
    simp only [Except.ok.injEq, Prod.mk.injEq] at h
    rw [← h.1, ← h.2.1]
  | cons d rest ih =>
    intro p c r cs rs Tl h hnn hcr
    have hd : 0 ≤ d := hnn d (List.mem_cons_self d rest)
    obtain ⟨T, c1, r1, cs', rs', Tl', _, hbr, hrec, hcs, hrs, _⟩ := loop_cons_elim h
    have h1 : c1 = r1 := by
      rcases hbr with ⟨hlt, hc1, hr1⟩ | ⟨_, hc1, hr1⟩ | ⟨_, hc1, hr1⟩
      · exact absurd hlt (by linarith)
      · rw [hc1, hr1, hcr]
      · rw [hc1, hr1, hcr]
    have := ih d c1 r1 cs' rs' Tl' hrec (fun x hx => hnn x (List.mem_cons_of_mem d hx)) h1
    rw [hcs, hrs, h1, this]

/-- Two distinct positive total concentrations give distinct modelled
aggregation fractions `1 - aggregate(N, T, t)/N` after one kinetics step. -/
lemma aggregate_frac_ne {N1 N2 t : ℝ} (T : ℝ) (h1 : 0 < N1) (h12 : N1 < N2)
    (ht : 0 < t) :
    1 - aggregate N1 T t / N1 ≠ 1 - aggregate N2 T t / N2 := by
  have h2 : 0 < N2 := lt_trans h1 h12
  have hk := rate_const_pos T
  have hK : 0 < PREEXP * Real.exp (-EAR / (T + 273)) * t := mul_pos hk ht
  intro heq
  have ha := sub_right_inj.1 heq
  unfold aggregate at ha
  have hD1 : (0:ℝ) < 1 + PREEXP * Real.exp (-EAR / (T + 273)) * t * N1 := by
    nlinarith
  have hD2 : (0:ℝ) < 1 + PREEXP * Real.exp (-EAR / (T + 273)) * t * N2 := by
    nlinarith
  field_simp at ha
  nlinarith [mul_pos (mul_pos h1 h2) (mul_pos hK (sub_pos.2 h12))]

/-! ## The claims -/

/-- C2 (the code at the failing input): at a checkpoint where
`age_core - duration` equals `age_rim` exactly (here `3520 - 1660 = 1860`),
`aggregate_and_cool` takes neither the `>` nor the `<` branch, so the core
concentration is left at 625 (and the rim at 801) — while the kinetics step
the claim says is applied unconditionally to the core would strictly
decrease it. -/
theorem core_update_skipped_at_rim_growth :
    aggregate_and_cool_loop linear_cool 1200 0.01 "continuous" none 3520 1860
        625 801 (some 1659) [1660] =
      .ok ([625], [801], [linear_cool 1200 1660 0.01]) ∧
    aggregate 625 (linear_cool 1200 1660 0.01)
        ((1660 - 1659) * 1e6 * 365.25 * 24 * 60 * 60) < 625 := by
  constructor
  · rw [aggregate_and_cool_loop, scenarioTemp_continuous]
    simp only [gt_iff_lt]
    rw [if_neg (by norm_num : ¬((1860:ℝ) < 3520 - 1660)),
      if_neg (by norm_num : ¬((3520:ℝ) - 1660 < 1860))]
    rfl
  · exact aggregate_lt_self _ (by norm_num) (by norm_num)

/-- C7: the kinetics step never increases a non-negative A-centre
concentration (for non-negative temperature and positive step), and
consequently both per-checkpoint concentration histories of
`aggregate_and_cool` are non-increasing whenever the checkpoints strictly
increase from a positive first value (all deltas positive), all computed
temperatures are non-negative, and the starting concentrations are
non-negative. -/
theorem aggregation_nonincreasing :
    (∀ NA T t : ℝ, 0 ≤ NA → 0 ≤ T → 0 < t → aggregate NA T t ≤ NA) ∧
    (∀ (cf : ℝ → ℝ → ℝ → ℝ) (Ts rate : ℝ) (sc : String) (sp : Option (List ℝ))
        (durations : List ℝ) (ac ar c_NT r_NT : ℝ) (cs rs Tl : List ℝ),
      aggregate_and_cool_runs cf Ts rate sc sp durations ac ar c_NT r_NT =
        .ok (cs, rs, Tl) →
      List.Chain' (· < ·) (0 :: durations) → (∀ T ∈ Tl, 0 ≤ T) →
      0 ≤ c_NT → 0 ≤ r_NT →
      List.Chain' (fun a b => b ≤ a) cs ∧ List.Chain' (fun a b => b ≤ a) rs) := by
  constructor
  · intro NA T t hNA _ ht
    exact aggregate_le_self T hNA ht.le
  · intro cf Ts rate sc sp durations ac ar c_NT r_NT cs rs Tl h hchain _ hc hr
    rw [aggregate_and_cool_runs, loop_none_eq_some_zero] at h
    obtain ⟨_, _, hcc, hrc⟩ := loop_nonneg_mono cf Ts rate sc sp ac ar durations
      0 c_NT r_NT cs rs Tl h hchain hc hr
    exact ⟨hcc, hrc⟩

/-- Witness for C7 at a concrete input. -/
theorem aggregation_nonincreasing_witness :
    aggregate 625 0 1 ≤ 625 ∧
    List.Chain' (fun a b => b ≤ a)
      [aggregate 625 (linear_cool 1200 0.01 0.01)
        (0.01 * 1e6 * 365.25 * 24 * 60 * 60)] ∧
    List.Chain' (fun a b => b ≤ a) [(801:ℝ)] :=
  ⟨aggregation_nonincreasing.1 625 0 1 (by norm_num) (by norm_num) (by norm_num),
   aggregation_nonincreasing.2 linear_cool 1200 0.01 "continuous" none [0.01]
     3520 1860 625 801 _ _ _
     (runs_singleton_core linear_cool 1200 0.01 none 0.01 3520 1860 625 801
       (by norm_num))
     (by rw [List.chain'_cons]; exact ⟨by norm_num, List.chain'_singleton _⟩)
     (by intro T hT
         simp only [List.mem_singleton] at hT
         subst hT
         norm_num [linear_cool])
     (by norm_num) (by norm_num)⟩

/-- C10: on a successful run whose checkpoints strictly increase from a
positive first value (all deltas positive) and whose computed temperatures
all exceed -273, positive total concentrations bound every history entry:
`0 < NA ≤ NT`, so `NT - NA ∈ [0, NT)` and `1 - NA/NT ∈ [0, 1)` for both
zones. -/
theorem concentration_bounds_invariant (cf : ℝ → ℝ → ℝ → ℝ) (Ts rate : ℝ)
    (sc : String) (sp : Option (List ℝ)) (durations : List ℝ)
    (ac ar c_NT r_NT : ℝ) (cs rs Tl : List ℝ)
    (h : aggregate_and_cool_runs cf Ts rate sc sp durations ac ar c_NT r_NT =
      .ok (cs, rs, Tl))
    (hdur : List.Chain' (· < ·) (0 :: durations))
    (_hT : ∀ T ∈ Tl, -273 < T)
    (hc : 0 < c_NT) (hr : 0 < r_NT) :
    (∀ x ∈ cs, 0 < x ∧ x ≤ c_NT ∧ 0 ≤ c_NT - x ∧ c_NT - x < c_NT ∧
      0 ≤ 1 - x / c_NT ∧ 1 - x / c_NT < 1) ∧
    (∀ x ∈ rs, 0 < x ∧ x ≤ r_NT ∧ 0 ≤ r_NT - x ∧ r_NT - x < r_NT ∧
      0 ≤ 1 - x / r_NT ∧ 1 - x / r_NT < 1) := by
  rw [aggregate_and_cool_runs, loop_none_eq_some_zero] at h
  obtain ⟨hcs, hrs⟩ := loop_pos_bounds cf Ts rate sc sp ac ar durations
    0 c_NT r_NT cs rs Tl h hdur hc hr
  constructor
  · intro x hx
    obtain ⟨hx0, hxle⟩ := hcs x hx
    refine ⟨hx0, hxle, by linarith, by linarith, ?_, ?_⟩
    · have : x / c_NT ≤ 1 := (div_le_one hc).2 hxle
      linarith
    · have : 0 < x / c_NT := div_pos hx0 hc
      linarith
  · intro x hx
    obtain ⟨hx0, hxle⟩ := hrs x hx
    refine ⟨hx0, hxle, by linarith, by linarith, ?_, ?_⟩
    · have : x / r_NT ≤ 1 := (div_le_one hr).2 hxle
      linarith
    · have : 0 < x / r_NT := div_pos hx0 hr
      linarith

/-- Witness for C10 at a concrete input. -/
theorem concentration_bounds_invariant_witness :
    (∀ x ∈ [aggregate 625 (linear_cool 1200 0.01 0.01)
        (0.01 * 1e6 * 365.25 * 24 * 60 * 60)],
      0 < x ∧ x ≤ 625 ∧ 0 ≤ 625 - x ∧ 625 - x < 625 ∧
        0 ≤ 1 - x / 625 ∧ 1 - x / 625 < 1) ∧
    (∀ x ∈ [(801:ℝ)],
      0 < x ∧ x ≤ 801 ∧ 0 ≤ 801 - x ∧ 801 - x < 801 ∧
        0 ≤ 1 - x / 801 ∧ 1 - x / 801 < 1) :=
  concentration_bounds_invariant linear_cool 1200 0.01 "continuous" none [0.01]
    3520 1860 625 801 _ _ _
    (runs_singleton_core linear_cool 1200 0.01 none 0.01 3520 1860 625 801
      (by norm_num))
    (by rw [List.chain'_cons]; exact ⟨by norm_num, List.chain'_singleton _⟩)
    (by intro T hT
        simp only [List.mem_singleton] at hT
        subst hT
        norm_num [linear_cool])
    (by norm_num) (by norm_num)

/-- C8 (counterexample): with equal core and rim ages (100 = 100) but the
sample's distinct total concentrations (625 vs 801 ppm), the run succeeds
and the two modelled aggregation fractions at the single checkpoint differ:
the growth offset vanishes but the fractions do not coincide. -/
theorem rim_core_aggregation_fractions_differ :
    aggregate_and_cool_runs linear_cool 1200 0.01 "continuous" none [0.01]
        100 100 625 801 =
      .ok ([aggregate 625 (linear_cool 1200 0.01 0.01)
              (0.01 * 1e6 * 365.25 * 24 * 60 * 60)],
           [aggregate 801 (linear_cool 1200 0.01 0.01)
              (0.01 * 1e6 * 365.25 * 24 * 60 * 60)],
           [linear_cool 1200 0.01 0.01]) ∧
    1 - aggregate 625 (linear_cool 1200 0.01 0.01)
          (0.01 * 1e6 * 365.25 * 24 * 60 * 60) / 625 ≠
      1 - aggregate 801 (linear_cool 1200 0.01 0.01)
          (0.01 * 1e6 * 365.25 * 24 * 60 * 60) / 801 :=
  ⟨runs_singleton_both linear_cool 1200 0.01 none 0.01 100 100 625 801
      (by norm_num),
   aggregate_frac_ne _ (by norm_num) (by norm_num) (by norm_num)⟩

/-- C8 (amended): with equal core and rim ages AND equal total nitrogen
concentrations in both zones, and non-negative checkpoint times, the rim
history equals the core history at every checkpoint. -/
theorem equal_ages_equal_histories (cf : ℝ → ℝ → ℝ → ℝ) (Ts rate : ℝ)
    (sc : String) (sp : Option (List ℝ)) (durations : List ℝ)
    (ac ar c_NT r_NT : ℝ) (cs rs Tl : List ℝ)
    (hage : ac = ar) (hNT : c_NT = r_NT) (hdur : ∀ x ∈ durations, 0 ≤ x)
    (h : aggregate_and_cool_runs cf Ts rate sc sp durations ac ar c_NT r_NT =
      .ok (cs, rs, Tl)) :
    cs = rs := by
  subst hage
  subst hNT
  rw [aggregate_and_cool_runs, loop_none_eq_some_zero] at h
  exact loop_eq_ages cf Ts rate sc sp ac durations 0 c_NT c_NT cs rs Tl h hdur rfl

/-- Witness for the amended C8 at a concrete input. -/
theorem equal_ages_equal_histories_witness :
    [aggregate 700 (linear_cool 1200 2 0.01) (2 * 1e6 * 365.25 * 24 * 60 * 60)] =
      [aggregate 700 (linear_cool 1200 2 0.01)
        (2 * 1e6 * 365.25 * 24 * 60 * 60)] :=
  equal_ages_equal_histories linear_cool 1200 0.01 "continuous" none [2]
    100 100 700 700 _ _ _ rfl rfl
    (by intro x hx
        simp only [List.mem_singleton] at hx
        subst hx
        norm_num)
    (runs_singleton_both linear_cool 1200 0.01 none 2 100 100 700 700
      (by norm_num))

lemma loop_singleton_core_prev (cf : ℝ → ℝ → ℝ → ℝ) (Ts rate : ℝ)
    (sp : Option (List ℝ)) (p d ac ar c r : ℝ) (h1 : ar < ac - d) :
    aggregate_and_cool_loop cf Ts rate "continuous" sp ac ar c r (some p) [d] =
      .ok ([aggregate c (cf Ts d rate) ((d - p) * 1e6 * 365.25 * 24 * 60 * 60)],
        [r], [cf Ts d rate]) := by
  rw [aggregate_and_cool_loop, scenarioTemp_continuous]
  simp only [gt_iff_lt, if_pos h1]
  rfl

lemma aggregate_eq_spec (NA T d_t : ℝ) :
    aggregate NA T (d_t * 1e6 * 365.25 * 24 * 60 * 60) =
      specKineticsStep NA T d_t := by
  unfold aggregate specKineticsStep PREEXP EAR
  ring_nf

/-- On any successful run, the head of the core history at a checkpoint where
the growth comparison is not an exact tie is the spec's kinetics step applied
with delta `d - p` (previous checkpoint `p`). -/
lemma loop_head_spec {cf : ℝ → ℝ → ℝ → ℝ} {Ts rate : ℝ} {sc : String}
    {sp : Option (List ℝ)} {ac ar c r p d : ℝ} {ds cs rs Tl : List ℝ} {T : ℝ}
    (h : aggregate_and_cool_loop cf Ts rate sc sp ac ar c r (some p) (d :: ds) =
      .ok (cs, rs, Tl))
    (hT : Tl.head? = some T) (hne : ac - d ≠ ar) :
    cs.head? = some (specKineticsStep c T (d - p)) := by
  obtain ⟨T', c1, r1, cs', rs', Tl', _, hbr, _, hcs, _, hTl⟩ := loop_cons_elim h
  subst hcs; subst hTl
  simp only [List.head?_cons, Option.some.injEq] at hT ⊢
  subst hT
  rcases hbr with ⟨_, hc1, _⟩ | ⟨_, hc1, _⟩ | ⟨heq, _, _⟩
  · rw [hc1, aggregate_eq_spec]
  · rw [hc1, aggregate_eq_spec]
  · exact absurd heq hne

lemma get_durations_head (ac ak dt : ℝ) (ds : List ℝ)
    (h : get_durations ac ak dt = .ok ds) : ds.head? = some 0.01 := by
  unfold get_durations at h
  split at h
  · exact absurd h (by simp)
  · simp only [Except.ok.injEq] at h
    rw [← h]
    rfl

/-- C3: the aggregation update `aggregate_and_cool` applies at a checkpoint
is exactly the spec's `NA' = NA/(1 + k*dt*NA)` with
`k = 293608 * exp(-81160/(T+273))` and dt converted from Myr to seconds;
the delta of the first checkpoint is that checkpoint's absolute value and
of a later checkpoint the difference to the previous one; and
`get_durations` forces the first checkpoint to 0.01 instead of 0. -/
theorem kinetics_step_matches_spec :
    (∀ NA T d_t : ℝ,
      aggregate NA T (d_t * 1e6 * 365.25 * 24 * 60 * 60) =
        specKineticsStep NA T d_t) ∧
    (∀ (cf : ℝ → ℝ → ℝ → ℝ) (Ts rate : ℝ) (sc : String) (sp : Option (List ℝ))
        (ac ar c r d : ℝ) (ds cs rs Tl : List ℝ) (T : ℝ),
      aggregate_and_cool_loop cf Ts rate sc sp ac ar c r none (d :: ds) =
        .ok (cs, rs, Tl) →
      Tl.head? = some T → ac - d ≠ ar →
      cs.head? = some (specKineticsStep c T d)) ∧
    (∀ (cf : ℝ → ℝ → ℝ → ℝ) (Ts rate : ℝ) (sc : String) (sp : Option (List ℝ))
        (ac ar c r p d : ℝ) (ds cs rs Tl : List ℝ) (T : ℝ),
      aggregate_and_cool_loop cf Ts rate sc sp ac ar c r (some p) (d :: ds) =
        .ok (cs, rs, Tl) →
      Tl.head? = some T → ac - d ≠ ar →
      cs.head? = some (specKineticsStep c T (d - p))) ∧
    (∀ (ac ak dt : ℝ) (ds : List ℝ),
      get_durations ac ak dt = .ok ds → ds.head? = some 0.01) := by
  refine ⟨aggregate_eq_spec, ?_, ?_, ?_⟩
  · intro cf Ts rate sc sp ac ar c r d ds cs rs Tl T h hT hne
    rw [loop_none_eq_some_zero] at h
    have := loop_head_spec h hT hne
    rwa [sub_zero] at this
  · intro cf Ts rate sc sp ac ar c r p d ds cs rs Tl T h hT hne
    exact loop_head_spec h hT hne
  · exact get_durations_head

/-- Witness for C3 at concrete inputs. -/
theorem kinetics_step_matches_spec_witness :
    aggregate 625 300 (5 * 1e6 * 365.25 * 24 * 60 * 60) =
      specKineticsStep 625 300 5 ∧
    [aggregate 625 (linear_cool 1200 0.01 0.01)
        (0.01 * 1e6 * 365.25 * 24 * 60 * 60)].head? =
      some (specKineticsStep 625 (linear_cool 1200 0.01 0.01) 0.01) ∧
    [aggregate 625 (linear_cool 1200 7 0.01)
        ((7 - 5) * 1e6 * 365.25 * 24 * 60 * 60)].head? =
      some (specKineticsStep 625 (linear_cool 1200 7 0.01) (7 - 5)) ∧
    ([(0.01 : ℝ)]).head? = some 0.01 :=
  ⟨kinetics_step_matches_spec.1 625 300 5,
   by
    have h2 := kinetics_step_matches_spec.2.1 linear_cool 1200 0.01 "continuous"
      none 3520 1860 625 801 0.01 [] _ _ _ (linear_cool 1200 0.01 0.01)
      (runs_singleton_core linear_cool 1200 0.01 none 0.01 3520 1860 625 801
        (by norm_num))
      rfl (by norm_num)
    have h20 : specKineticsStep 625 (linear_cool 1200 0.01 0.01) (0.01 - 0) =
        specKineticsStep 625 (linear_cool 1200 0.01 0.01) 0.01 := by
      rw [sub_zero]
    exact h2,
   kinetics_step_matches_spec.2.2.1 linear_cool 1200 0.01 "continuous" none
     3520 1860 625 801 5 7 [] _ _ _ (linear_cool 1200 7 0.01)
     (loop_singleton_core_prev linear_cool 1200 0.01 none 5 7 3520 1860 625 801
       (by norm_num))
     rfl (by norm_num),
   kinetics_step_matches_spec.2.2.2 0 0 1 [0.01]
     (by
      unfold get_durations
      rw [show (((0:ℝ) - 0 + 1) / 1) = 1 by norm_num, Nat.ceil_one]
      rfl)⟩

/-- C4: on a successful run, the scalar mode of `aggregate_and_cool` returns
`1000 * [(r_agg - r_model)^2 + (c_agg - c_model)^2]` with each modelled
fraction `1 - NA_last/NT`; this value is non-negative and vanishes exactly
when both modelled fractions equal the observed ones. -/
theorem error_formula_nonneg_zero_iff (cf : ℝ → ℝ → ℝ → ℝ) (Ts rate : ℝ)
    (sc : String) (sp : Option (List ℝ)) (durations : List ℝ)
    (ac ar c_NT r_NT c_agg r_agg : ℝ) (cs rs Tl : List ℝ) (cL rL : ℝ)
    (h : aggregate_and_cool_runs cf Ts rate sc sp durations ac ar c_NT r_NT =
      .ok (cs, rs, Tl))
    (hc : cs.getLast? = some cL) (hr : rs.getLast? = some rL) :
    aggregate_and_cool_error cf Ts rate sc sp durations ac ar c_NT r_NT
        c_agg r_agg =
      .ok (1000 * ((r_agg - (1 - rL / r_NT)) ^ 2 +
        (c_agg - (1 - cL / c_NT)) ^ 2)) ∧
    0 ≤ 1000 * ((r_agg - (1 - rL / r_NT)) ^ 2 + (c_agg - (1 - cL / c_NT)) ^ 2) ∧
    (1000 * ((r_agg - (1 - rL / r_NT)) ^ 2 + (c_agg - (1 - cL / c_NT)) ^ 2) = 0 ↔
      1 - cL / c_NT = c_agg ∧ 1 - rL / r_NT = r_agg) := by
  refine ⟨?_, by positivity, ?_, ?_⟩
  · unfold aggregate_and_cool_error
    rw [h]
    simp only [hc, hr]
    congr 1
    ring_nf
  · intro h0
    have ha : (r_agg - (1 - rL / r_NT)) ^ 2 = 0 := by
      nlinarith [sq_nonneg (r_agg - (1 - rL / r_NT)),
        sq_nonneg (c_agg - (1 - cL / c_NT))]
    have hb : (c_agg - (1 - cL / c_NT)) ^ 2 = 0 := by
      nlinarith [sq_nonneg (r_agg - (1 - rL / r_NT)),
        sq_nonneg (c_agg - (1 - cL / c_NT))]
    have ha' := pow_eq_zero_iff two_ne_zero |>.1 ha
    have hb' := pow_eq_zero_iff two_ne_zero |>.1 hb
    constructor
    · linarith [sub_eq_zero.1 hb']
    · linarith [sub_eq_zero.1 ha']
  · rintro ⟨e1, e2⟩
    rw [e1, e2]
    ring

/-- Witness for C4 at a concrete input. -/
theorem error_formula_nonneg_zero_iff_witness :
    aggregate_and_cool_error linear_cool 1200 0.01 "continuous" none [0.01]
        3520 1860 625 801 0.863 0.197 =
      .ok (1000 * ((0.197 - (1 - 801 / 801)) ^ 2 +
        (0.863 - (1 - aggregate 625 (linear_cool 1200 0.01 0.01)
          (0.01 * 1e6 * 365.25 * 24 * 60 * 60) / 625)) ^ 2)) ∧
    0 ≤ 1000 * ((0.197 - (1 - 801 / 801)) ^ 2 +
      (0.863 - (1 - aggregate 625 (linear_cool 1200 0.01 0.01)
        (0.01 * 1e6 * 365.25 * 24 * 60 * 60) / 625)) ^ 2) ∧
    (1000 * ((0.197 - (1 - 801 / 801)) ^ 2 +
        (0.863 - (1 - aggregate 625 (linear_cool 1200 0.01 0.01)
          (0.01 * 1e6 * 365.25 * 24 * 60 * 60) / 625)) ^ 2) = 0 ↔
      1 - aggregate 625 (linear_cool 1200 0.01 0.01)
          (0.01 * 1e6 * 365.25 * 24 * 60 * 60) / 625 = 0.863 ∧
      1 - (801:ℝ) / 801 = 0.197) :=
  error_formula_nonneg_zero_iff linear_cool 1200 0.01 "continuous" none [0.01]
    3520 1860 625 801 0.863 0.197 _ _ _ _ _
    (runs_singleton_core linear_cool 1200 0.01 none 0.01 3520 1860 625 801
      (by norm_num))
    rfl rfl

/-- C5 (counterexample): a configuration invalid in three of the listed ways
at once — core nitrogen 0 (non-positive), rim nitrogen -5 (non-positive),
rim age 4000 exceeding core age 3520 — is accepted by the model constructor
without any error, and the simulation then runs to completion and returns an
objective value: nothing fails fast. -/
theorem invalid_configuration_accepted :
    AggregationModel.make ⟨3520, 4000, 0, 0, 0.863, -5, 0.197⟩ 0.01 1200
        (0.001, 0.12) (1000, 1450) 1 "continuous" none linear_cool =
      .ok ⟨⟨3520, 4000, 0, 0, 0.863, -5, 0.197⟩, 0.01, 1200, (0.001, 0.12),
        (1000, 1450), 1, "continuous", none, linear_cool, false, none⟩ ∧
    (∃ e : ℝ, aggregate_and_cool_error linear_cool 1200 0.01 "continuous" none
      [0.01] 3520 4000 0 (-5) 0.863 0.197 = .ok e) := by
  constructor
  · rw [AggregationModel.make, if_neg (by decide : ¬("continuous" ∉ SCENARIOS))]
  · exact ⟨_, by
      unfold aggregate_and_cool_error
      rw [runs_singleton_both linear_cool 1200 0.01 none 0.01 3520 4000 0 (-5)
        (by norm_num)]
      rfl⟩

/-- C5 (amended): the model validates only the scenario selector.  The
constructor accepts every diamond — nitrogen concentrations of any sign and
any age ordering — storing the fields as given; a wrong-arity
`scenario_params` for a parameterised scenario raises only once the loop
evaluates the scenario branch at the first checkpoint (so with an empty
checkpoint list the arity is never checked and the failure is the
history-indexing `IndexError` instead). -/
theorem validation_checks_scenario_name_only :
    (∀ (d : Diamond) (cr Ts : ℝ) (rb Tb : ℝ × ℝ) (dt : ℝ)
        (sp : Option (List ℝ)) (cfn : ℝ → ℝ → ℝ → ℝ),
      AggregationModel.make d cr Ts rb Tb dt "continuous" sp cfn =
        .ok ⟨d, cr, Ts, rb, Tb, dt, "continuous", sp, cfn, false, none⟩) ∧
    (∀ (cf : ℝ → ℝ → ℝ → ℝ) (Ts rate d : ℝ) (ds : List ℝ)
        (ac ar cN rN ca ra : ℝ),
      aggregate_and_cool_error cf Ts rate "hot_pulse" (some []) (d :: ds)
          ac ar cN rN ca ra =
        .error "ValueError: cannot unpack scenario_params") ∧
    (∀ (cf : ℝ → ℝ → ℝ → ℝ) (Ts rate : ℝ) (ac ar cN rN ca ra : ℝ),
      aggregate_and_cool_error cf Ts rate "hot_pulse" (some []) []
          ac ar cN rN ca ra =
        .error "IndexError") := by
  refine ⟨?_, ?_, ?_⟩
  · intro d cr Ts rb Tb dt sp cfn
    rw [AggregationModel.make, if_neg (by decide : ¬("continuous" ∉ SCENARIOS))]
  · intro cf Ts rate d ds ac ar cN rN ca ra
    unfold aggregate_and_cool_error aggregate_and_cool_runs
    rw [aggregate_and_cool_loop,
      show scenarioTemp cf Ts rate "hot_pulse" (some []) d =
        .error "ValueError: cannot unpack scenario_params" from rfl]
  · intro cf Ts rate ac ar cN rN ca ra
    rfl

/-- C6: every scenario selector outside the five recognised names is
rejected with a `ValueError` both by the model constructor and — before any
checkpoint is aggregated, so with no history produced — by
`aggregate_and_cool` in either output mode. -/
theorem unknown_scenario_rejected (sc : String) (h : sc ∉ SCENARIOS)
    (d0 : Diamond) (cr Ts0 : ℝ) (rb Tb : ℝ × ℝ) (dt : ℝ)
    (sp : Option (List ℝ)) (cfn cf : ℝ → ℝ → ℝ → ℝ) (Ts rate dur : ℝ)
    (ds : List ℝ) (ac ar cN rN ca ra : ℝ) :
    AggregationModel.make d0 cr Ts0 rb Tb dt sc sp cfn =
      .error "ValueError: Unrecognised scenario" ∧
    aggregate_and_cool_error cf Ts rate sc sp (dur :: ds) ac ar cN rN ca ra =
      .error "ValueError: Invalid T_scenario" ∧
    aggregate_and_cool_history cf Ts rate sc sp (dur :: ds) ac ar cN rN =
      .error "ValueError: Invalid T_scenario" := by
  refine ⟨?_, ?_, ?_⟩
  · rw [AggregationModel.make, if_pos h]
  · unfold aggregate_and_cool_error aggregate_and_cool_runs
    rw [aggregate_and_cool_loop, scenarioTemp_unknown cf Ts rate sc sp dur h]
  · unfold aggregate_and_cool_history aggregate_and_cool_runs
    rw [aggregate_and_cool_loop, scenarioTemp_unknown cf Ts rate sc sp dur h]

/-- Witness for C6 at a concrete input. -/
theorem unknown_scenario_rejected_witness :
    AggregationModel.make ⟨3520, 1860, 0, 625, 0.863, 801, 0.197⟩ 0.01 1200
        (0.001, 0.12) (1000, 1450) 1 "banana" none linear_cool =
      .error "ValueError: Unrecognised scenario" ∧
    aggregate_and_cool_error linear_cool 1200 0.01 "banana" none [0.01]
        3520 1860 625 801 0.863 0.197 =
      .error "ValueError: Invalid T_scenario" ∧
    aggregate_and_cool_history linear_cool 1200 0.01 "banana" none [0.01]
        3520 1860 625 801 =
      .error "ValueError: Invalid T_scenario" :=
  unknown_scenario_rejected "banana" (by decide)
    ⟨3520, 1860, 0, 625, 0.863, 801, 0.197⟩ 0.01 1200 (0.001, 0.12)
    (1000, 1450) 1 none linear_cool linear_cool 1200 0.01 0.01 []
    3520 1860 625 801 0.863 0.197

/-- C9 (counterexample): serializing a fitted model and deserializing loses
the fit: `to_json` stores the fitted pair, but `from_json` rebuilds the
model through `__init__`, so the round-tripped model is unfitted with no
stored result — not identical to the fitted model it came from. -/
theorem fit_result_lost_in_roundtrip :
    (AggregationModel.from_json (AggregationModel.to_json exampleModel)
        none).map (fun m => (m.fitted, m.model_results)) =
      .ok ((false : Bool), (none : Option (ℝ × ℝ))) ∧
    exampleModel.fitted = true ∧
    exampleModel.model_results = some (1105, 0.011) ∧
    ((false : Bool), (none : Option (ℝ × ℝ))) ≠ (true, some (1105, 0.011)) := by
  refine ⟨rfl, rfl, rfl, by simp⟩

/-- C9 (amended): the round trip reproduces every Diamond field and every
configuration field (initial guesses, both bounds pairs, dt, scenario
selector and scenario parameters) exactly; the fit result, however, is
written but never read back, so the reconstructed model is always unfitted
(with the default cooling function restored). -/
theorem roundtrip_reproduces_configuration :
    (∀ d : Diamond, Diamond.from_json (Diamond.to_json d) = d) ∧
    (∀ m : AggregationModel, m.T_scenario ∈ SCENARIOS →
      AggregationModel.from_json (AggregationModel.to_json m) none =
        .ok { m with
          cooling_function := linear_cool
          fitted := false
          model_results := none }) := by
  constructor
  · intro d
    rfl
  · intro m hm
    have key : AggregationModel.from_json (AggregationModel.to_json m) none =
        AggregationModel.make (Diamond.from_json (Diamond.to_json m.diamond))
          m.cooling_rate0 m.T_start0 m.rate_bounds m.T_bounds m.dt
          m.T_scenario m.scenario_params linear_cool := rfl
    rw [key, AggregationModel.make, if_neg (not_not_intro hm)]
    rfl

/-- Witness for the amended C9 at a concrete input. -/
theorem roundtrip_reproduces_configuration_witness :
    Diamond.from_json (Diamond.to_json ⟨3520, 1860, 0, 625, 0.863, 801, 0.197⟩) =
      ⟨3520, 1860, 0, 625, 0.863, 801, 0.197⟩ ∧
    AggregationModel.from_json (AggregationModel.to_json exampleModel) none =
      .ok { exampleModel with
        cooling_function := linear_cool
        fitted := false
        model_results := none } :=
  ⟨roundtrip_reproduces_configuration.1 ⟨3520, 1860, 0, 625, 0.863, 801, 0.197⟩,
   roundtrip_reproduces_configuration.2 exampleModel (by
    rw [show exampleModel.T_scenario = "continuous" from rfl]
    decide)⟩

/-- C1 (counterexample): in the hot_pulse scenario with `T_pulse = 100`,
`t_pulse_start = 10`, `pulse_duration = 5` under linear cooling from 1200 at
rate 1, the value at the branch boundary `t_pulse_start` is the plateau 1290,
while the cooling-law branch below the boundary evaluates to 1190 there: the
two adjacent branches do not give the same temperature (the jump is exactly
`T_pulse`). -/
theorem hot_pulse_start_discontinuity :
    scenarioTemp linear_cool 1200 1 "hot_pulse" (some [100, 10, 5]) 10 =
      .ok 1290 ∧
    linear_cool 1200 10 1 = 1190 ∧ ((1290 : ℝ) ≠ 1190) := by
  refine ⟨?_, by norm_num [linear_cool], by norm_num⟩
  simp only [scenarioTemp, String.reduceEq, if_false, if_true]
  rw [if_neg (lt_irrefl (10:ℝ)),
    if_pos (⟨le_refl (10:ℝ), by norm_num⟩ : (10:ℝ) ≤ 10 ∧ (10:ℝ) ≤ 10 + 5)]
  norm_num [linear_cool]

/-- C1 (amended): for every cooling law fixing its start value at elapsed
time 0 and admissible parameters (`0 < pulse_duration`,
`0 ≤ ascent_duration`), the temperature of `aggregate_and_cool` is continuous
at the slow_ascent branch boundaries and at the hot_spike pulse end, and
rapid_ascent at `t_ascent` equals the unperturbed cooling-law projection
minus exactly `T_drop`; but at `t_pulse_start` the hot_pulse and hot_spike
values exceed the below-branch cooling-law value by exactly `T_pulse`, and at
the hot_pulse pulse end the plateau still holds (so the after branch
coincides there only if `T_pulse = cf Ts (tps+pd) rate - cf Ts tps rate`). -/
theorem scenario_branch_boundaries (cf : ℝ → ℝ → ℝ → ℝ)
    (hcf : ∀ X r : ℝ, cf X 0 r = X)
    (Ts rate Tp tps pd Td ta ra tas ad : ℝ) (sp : Option (List ℝ))
    (hpd : 0 < pd) (had : 0 ≤ ad) :
    scenarioTemp cf Ts rate "continuous" sp ta = .ok (cf Ts ta rate) ∧
    scenarioTemp cf Ts rate "hot_pulse" (some [Tp, tps, pd]) tps =
      .ok (cf Ts tps rate + Tp) ∧
    scenarioTemp cf Ts rate "hot_pulse" (some [Tp, tps, pd]) (tps + pd) =
      .ok (cf Ts tps rate + Tp) ∧
    scenarioTemp cf Ts rate "hot_spike" (some [Tp, tps, pd]) tps =
      .ok (cf Ts tps rate + Tp) ∧
    scenarioTemp cf Ts rate "hot_spike" (some [Tp, tps, pd]) (tps + pd) =
      .ok (cf Ts (tps + pd) rate) ∧
    scenarioTemp cf Ts rate "rapid_ascent" (some [Td, ta]) ta =
      .ok (cf Ts ta rate - Td) ∧
    scenarioTemp cf Ts rate "slow_ascent" (some [ra, tas, ad]) tas =
      .ok (cf Ts tas rate) ∧
    scenarioTemp cf Ts rate "slow_ascent" (some [ra, tas, ad]) (tas + ad) =
      .ok (cf (cf Ts tas rate) ad ra) ∧
    cf (cf (cf Ts tas rate) ad ra) ((tas + ad) - (tas + ad)) rate =
      cf (cf Ts tas rate) ad ra := by
  refine ⟨scenarioTemp_continuous cf Ts rate sp ta, ?_, ?_, ?_, ?_, ?_, ?_, ?_, ?_⟩
  · simp only [scenarioTemp, String.reduceEq, if_false, if_true]
    rw [if_neg (lt_irrefl tps),
      if_pos (⟨le_refl tps, by linarith⟩ : tps ≤ tps ∧ tps ≤ tps + pd)]
  · simp only [scenarioTemp, String.reduceEq, if_false, if_true]
    rw [if_neg (by linarith : ¬ tps + pd < tps),
      if_pos (⟨by linarith, le_refl (tps + pd)⟩ :
        tps ≤ tps + pd ∧ tps + pd ≤ tps + pd)]
  · simp only [scenarioTemp, String.reduceEq, if_false, if_true]
    rw [if_neg (lt_irrefl tps),
      if_pos (⟨le_refl tps, by linarith⟩ : tps ≤ tps ∧ tps ≤ tps + pd)]
    simp only [sub_self, zero_div, mul_zero, add_zero]
  · simp only [scenarioTemp, String.reduceEq, if_false, if_true]
    rw [if_neg (by linarith : ¬ tps + pd < tps),
      if_pos (⟨by linarith, le_refl (tps + pd)⟩ :
        tps ≤ tps + pd ∧ tps + pd ≤ tps + pd)]
    simp only [Except.ok.injEq]
    rw [show tps + pd - tps = pd by ring, div_self (ne_of_gt hpd), mul_one]
    ring
  · simp only [scenarioTemp, String.reduceEq, if_false, if_true]
    rw [if_neg (lt_irrefl ta), sub_self, hcf]
  · simp only [scenarioTemp, String.reduceEq, if_false, if_true]
    rw [if_neg (lt_irrefl tas),
      if_pos (⟨le_refl tas, by linarith⟩ : tas ≤ tas ∧ tas ≤ tas + ad),
      sub_self, hcf]
  · simp only [scenarioTemp, String.reduceEq, if_false, if_true]
    rw [if_neg (by linarith : ¬ tas + ad < tas),
      if_pos (⟨by linarith, le_refl (tas + ad)⟩ :
        tas ≤ tas + ad ∧ tas + ad ≤ tas + ad),
      show tas + ad - tas = ad by ring]
  · rw [sub_self, hcf]

/-- Witness for the amended C1 at a concrete input (linear cooling from 1200
at rate 1; pulse 100 over [10, 15]; drop 50 at 20; ascent rate 2 over
[30, 34]). -/
theorem scenario_branch_boundaries_witness :
    scenarioTemp linear_cool 1200 1 "continuous" none 20 =
      .ok (linear_cool 1200 20 1) ∧
    scenarioTemp linear_cool 1200 1 "hot_pulse" (some [100, 10, 5]) 10 =
      .ok (linear_cool 1200 10 1 + 100) ∧
    scenarioTemp linear_cool 1200 1 "hot_pulse" (some [100, 10, 5]) (10 + 5) =
      .ok (linear_cool 1200 10 1 + 100) ∧
    scenarioTemp linear_cool 1200 1 "hot_spike" (some [100, 10, 5]) 10 =
      .ok (linear_cool 1200 10 1 + 100) ∧
    scenarioTemp linear_cool 1200 1 "hot_spike" (some [100, 10, 5]) (10 + 5) =
      .ok (linear_cool 1200 (10 + 5) 1) ∧
    scenarioTemp linear_cool 1200 1 "rapid_ascent" (some [50, 20]) 20 =
      .ok (linear_cool 1200 20 1 - 50) ∧
    scenarioTemp linear_cool 1200 1 "slow_ascent" (some [2, 30, 4]) 30 =
      .ok (linear_cool 1200 30 1) ∧
    scenarioTemp linear_cool 1200 1 "slow_ascent" (some [2, 30, 4]) (30 + 4) =
      .ok (linear_cool (linear_cool 1200 30 1) 4 2) ∧
    linear_cool (linear_cool (linear_cool 1200 30 1) 4 2)
        ((30 + 4) - (30 + 4)) 1 =
      linear_cool (linear_cool 1200 30 1) 4 2 :=
  scenario_branch_boundaries linear_cool
    (by intro X r; simp [linear_cool])
    1200 1 100 10 5 50 20 2 30 4 none (by norm_num) (by norm_num)

end SNAC
